import Mathlib

/-!
Formal model of the YourGPT web SDK React integration layer
(`src/react/components/YourGPTProvider.tsx`).

The provider component is embedded as a small-step machine over an explicit
world state: the React hook state exposed through the context, the effect
cleanup currently registered with React together with the `sdk` value its
closure captured at the render in which the effect ran, the number of
in-flight asynchronous initializations, the `stateChange` listeners attached
to SDK instances, and instrumentation counters (shim invocations, cleanup
runs, unsubscribe calls, callback invocations).
-/

namespace YourGPTSDK

/-- Widget state snapshot mirrored from the external widget (the `WidgetState`
shape used at lines 42-49 of the provider). -/
structure WidgetState where
  isOpen : Bool
  isVisible : Bool
  isConnected : Bool
  isLoaded : Bool
  messageCount : Nat
  connectionRetries : Nat
deriving DecidableEq, Repr

/-- The default widget state installed by `useState` at lines 42-49. -/
def defaultWidgetState : WidgetState :=
  { isOpen := false, isVisible := true, isConnected := false,
    isLoaded := false, messageCount := 0, connectionRetries := 0 }

/-- The SDK's single error type: a tagged wrapper around a message string. -/
structure YourGPTError where
  message : String
deriving DecidableEq, Repr

/-- Model of an initialized SDK instance: an identity (so listeners and the
stored unsubscribe property can be attributed to the right instance) plus the
snapshot its `getState()` returns. -/
structure SDKInstance where
  id : Nat
  snapshot : WidgetState
deriving DecidableEq, Repr

/-- `sdkInstance.getState()` (line 74). -/
def SDKInstance.getState (i : SDKInstance) : WidgetState := i.snapshot

/-- A value thrown by `YourGPT.init`: either already a `YourGPTError`, or any
other value carried by its string representation `String(err)`. -/
inductive Thrown where
  | sdkError (e : YourGPTError)
  | other (s : String)
deriving DecidableEq, Repr

/-- Line 83: `err instanceof YourGPTError ? err : new YourGPTError(String(err))`. -/
def normalizeThrown : Thrown → YourGPTError
  | .sdkError e => e
  | .other s => ⟨s⟩

/-- The component's hook state (lines 37-49), which is also the exposed
context value (lines 106-112). The SDK handle is tracked by instance id. -/
structure Hooks where
  isBrowser : Bool
  sdk : Option Nat
  isInitialized : Bool
  isLoading : Bool
  error : Option YourGPTError
  state : WidgetState
deriving DecidableEq, Repr

/-- World state of one provider scope.

`cleanupCapturedSdk` models the effect cleanup registered with React: `none`
means no cleanup is registered; `some c` means a cleanup is registered and its
closure captured the value `c` of the `sdk` state variable at the render in
which the effect body ran (React cleanups close over render-time values, they
do not read current state).

`listeners` are the instance ids carrying an attached `stateChange` listener;
`storedUnsub` are the instance ids on which line 77 stored the
`_unsubscribeStateChange` property. Hook state setters are no-ops once the
component is unmounted, while effects on the SDK instances themselves (listener
attachment, property stores) and prop callbacks still happen, because the
promise continuation keeps running on the event loop. -/
structure World where
  mounted : Bool
  hooks : Hooks
  hasOnError : Bool
  hasOnInitialized : Bool
  cleanupCapturedSdk : Option (Option Nat)
  pendingInits : Nat
  listeners : List Nat
  storedUnsub : List Nat
  unsubscribeCalls : Nat
  cleanupRuns : Nat
  initCalls : Nat
  onErrorCalls : List YourGPTError
  onInitializedCalls : Nat
deriving DecidableEq, Repr

/-- Freshly mounted provider: default hook state, no effect registered yet. -/
def initialWorld (onErr onInit : Bool) : World :=
  { mounted := true
    hooks := { isBrowser := false, sdk := none, isInitialized := false,
               isLoading := false, error := none, state := defaultWidgetState }
    hasOnError := onErr
    hasOnInitialized := onInit
    cleanupCapturedSdk := none
    pendingInits := 0
    listeners := []
    storedUnsub := []
    unsubscribeCalls := 0
    cleanupRuns := 0
    initCalls := 0
    onErrorCalls := []
    onInitializedCalls := 0 }

/-- React invoking the registered effect cleanup, if any (lines 96-103):
`if (sdk) { if (sdk._unsubscribeStateChange) sdk._unsubscribeStateChange(); }`
where `sdk` is the closure-captured value. Calling the unsubscribe removes the
listener from the instance. After running, the cleanup is discarded. -/
def runCleanup (w : World) : World :=
  match w.cleanupCapturedSdk with
  | none => w
  | some captured =>
    let w1 := { w with cleanupCapturedSdk := none, cleanupRuns := w.cleanupRuns + 1 }
    match captured with
    | none => w1
    | some i =>
      if i ∈ w1.storedUnsub then
        { w1 with unsubscribeCalls := w1.unsubscribeCalls + 1,
                  listeners := w1.listeners.erase i }
      else w1

/-- The init effect body at a render (lines 56-95). If `isBrowser` is false it
returns early and registers no cleanup (line 58). Otherwise the synchronous
prefix of `initializeSDK` runs — `setIsLoading(true); setError(null)` (lines
61-62) — the shim call `YourGPT.init(config)` is issued (line 65, counted by
`initCalls`, suspending as a pending initialization), and the cleanup closure
(lines 96-103) is registered, capturing the current `sdk` state value. -/
def runEffectBody (w : World) : World :=
  if w.hooks.isBrowser then
    { w with hooks := { w.hooks with isLoading := true, error := none },
             pendingInits := w.pendingInits + 1,
             initCalls := w.initCalls + 1,
             cleanupCapturedSdk := some w.hooks.sdk }
  else { w with cleanupCapturedSdk := none }

/-- A pending `YourGPT.init` resolves successfully (lines 65-81, 89-91): the
`stateChange` listener is attached (line 68) and the unsubscribe stored on the
instance (line 77) regardless of mount status, since the continuation runs on
the event loop; the state setters (`setSdk`, `setIsInitialized`,
`setState(getState())`, and the `finally` block's `setIsLoading(false)`)
update hook state only while mounted; `onInitialized` is invoked if given. -/
def resolveOkStep (inst : SDKInstance) (w : World) : World :=
  if w.pendingInits = 0 then w else
    let w1 := { w with listeners := inst.id :: w.listeners }
    let h1 := if w1.mounted then
        { w1.hooks with sdk := some inst.id, isInitialized := true,
                        state := inst.getState }
      else w1.hooks
    let w2 := { w1 with hooks := h1,
                        storedUnsub := inst.id :: w1.storedUnsub,
                        onInitializedCalls :=
                          if w1.hasOnInitialized then w1.onInitializedCalls + 1
                          else w1.onInitializedCalls }
    let h2 := if w2.mounted then { w2.hooks with isLoading := false } else w2.hooks
    { w2 with hooks := h2, pendingInits := w2.pendingInits - 1 }

/-- A pending `YourGPT.init` throws (lines 82-91): the thrown value is
normalized (line 83), `setError` applies while mounted, `onError` is invoked
with the normalized error if given, and the `finally` block clears loading. -/
def resolveErrStep (t : Thrown) (w : World) : World :=
  if w.pendingInits = 0 then w else
    let e := normalizeThrown t
    let h1 := if w.mounted then { w.hooks with error := some e } else w.hooks
    let w1 := { w with hooks := h1,
                       onErrorCalls := if w.hasOnError then w.onErrorCalls ++ [e]
                                       else w.onErrorCalls }
    let h2 := if w1.mounted then { w1.hooks with isLoading := false } else w1.hooks
    { w1 with hooks := h2, pendingInits := w1.pendingInits - 1 }

/-- The widget emits a `stateChange` event on instance `i` with payload `ws`.
If a listener is attached, the callback `(newState) => setState(newState)`
(lines 68-70) runs; the setter applies only while mounted. -/
def emitStateChange (i : Nat) (ws : WidgetState) (w : World) : World :=
  if i ∈ w.listeners then
    if w.mounted then { w with hooks := { w.hooks with state := ws } } else w
  else w

/-- Observable events of one provider scope. `browserEffect` is the first
effect (lines 52-54) setting `isBrowser`; `effectRun` is React (re)running the
init effect after its dependency array `[config, onError, onInitialized,
isBrowser]` changed (line 104) — the previously registered cleanup, if any, is
invoked first, then the body runs; `unmount` tears the scope down, invoking
the registered cleanup. -/
inductive Event where
  | browserEffect
  | effectRun
  | resolveOk (inst : SDKInstance)
  | resolveErr (t : Thrown)
  | emit (i : Nat) (ws : WidgetState)
  | unmount
deriving DecidableEq, Repr

/-- One step of the provider lifecycle machine. -/
def step : Event → World → World
  | .browserEffect, w => { w with hooks := { w.hooks with isBrowser := true } }
  | .effectRun, w => runEffectBody (runCleanup w)
  | .resolveOk inst, w => resolveOkStep inst w
  | .resolveErr t, w => resolveErrStep t w
  | .emit i ws, w => emitStateChange i ws w
  | .unmount, w => { runCleanup w with mounted := false }

/-- Run a sequence of events from a world. -/
def run (evs : List Event) (w : World) : World :=
  evs.foldl (fun acc e => step e acc) w

/-- The context value exposed to descendants (lines 16-22, 106-112). -/
structure YourGPTContextValue where
  sdk : Option Nat
  isInitialized : Bool
  isLoading : Bool
  error : Option YourGPTError
  state : WidgetState
deriving DecidableEq, Repr

/-- The `useYourGPT` hook (lines 120-128): given the context lookup result
(`null` outside a provider), throw a `YourGPTError` or return the value. -/
def useYourGPT (ctx : Option YourGPTContextValue) :
    Except YourGPTError YourGPTContextValue :=
  match ctx with
  | none => .error ⟨"useYourGPT must be used within a YourGPTProvider"⟩
  | some v => .ok v

/-- Modelled from the spec: the named-action registration surface
(`registerAction(name, handler)`, `unregisterAction(name)`) — its core
implementation is not under `src/`, only the example guide calling it; per the
spec it is a basic mapping-keyed dispatch table from action names to handlers. -/
def ActionRegistry (α : Type) : Type := String → Option α

/-- Modelled from the spec: the empty dispatch table. -/
def emptyRegistry (α : Type) : ActionRegistry α := fun _ => none

/-- Modelled from the spec: `registerAction(name, handler)` binds `handler`
under `name` in the dispatch table. -/
def registerAction {α : Type} (name : String) (handler : α)
    (r : ActionRegistry α) : ActionRegistry α :=
  fun n => if n = name then some handler else r n

/-- Modelled from the spec: `unregisterAction(name)` removes the binding
under `name` from the dispatch table. -/
def unregisterAction {α : Type} (name : String) (r : ActionRegistry α) :
    ActionRegistry α :=
  fun n => if n = name then none else r n

/-! ### Helper lemmas -/

theorem runCleanup_preserves (w : World) :
    (runCleanup w).hooks = w.hooks ∧ (runCleanup w).mounted = w.mounted ∧
    (runCleanup w).pendingInits = w.pendingInits ∧
    (runCleanup w).initCalls = w.initCalls ∧
    (runCleanup w).hasOnError = w.hasOnError ∧
    (runCleanup w).hasOnInitialized = w.hasOnInitialized ∧
    (runCleanup w).onErrorCalls = w.onErrorCalls ∧
    (runCleanup w).storedUnsub = w.storedUnsub := by
  unfold runCleanup
  rcases hc : w.cleanupCapturedSdk with _ | (_ | i)
  · simp
  · simp
  · by_cases h : i ∈ w.storedUnsub <;> simp [h]

theorem runCleanup_cleanupRuns_of_registered (w : World) (c : Option Nat)
    (hc : w.cleanupCapturedSdk = some c) :
    (runCleanup w).cleanupRuns = w.cleanupRuns + 1 := by
  unfold runCleanup
  rw [hc]
  rcases c with _ | i
  · rfl
  · by_cases h : i ∈ w.storedUnsub <;> simp [h]

theorem runEffectBody_of_browser (w : World) (hb : w.hooks.isBrowser = true) :
    runEffectBody w =
      { w with hooks := { w.hooks with isLoading := true, error := none },
               pendingInits := w.pendingInits + 1,
               initCalls := w.initCalls + 1,
               cleanupCapturedSdk := some w.hooks.sdk } := by
  simp [runEffectBody, hb]

theorem resolveOkStep_of_mounted (inst : SDKInstance) (w : World)
    (hm : w.mounted = true) (hp : w.pendingInits ≠ 0) :
    resolveOkStep inst w =
      { w with
          hooks := { w.hooks with
            sdk := some inst.id
            isInitialized := true
            state := inst.getState
            isLoading := false }
          listeners := inst.id :: w.listeners
          storedUnsub := inst.id :: w.storedUnsub
          onInitializedCalls := (if w.hasOnInitialized then
            w.onInitializedCalls + 1 else w.onInitializedCalls)
          pendingInits := w.pendingInits - 1 } := by
  simp [resolveOkStep, hp, hm]

theorem resolveErrStep_of_mounted (t : Thrown) (w : World)
    (hm : w.mounted = true) (hp : w.pendingInits ≠ 0) :
    resolveErrStep t w =
      { w with
          hooks := { w.hooks with
            error := some (normalizeThrown t)
            isLoading := false }
          onErrorCalls := (if w.hasOnError then
            w.onErrorCalls ++ [normalizeThrown t] else w.onErrorCalls)
          pendingInits := w.pendingInits - 1 } := by
  simp [resolveErrStep, hp, hm]

theorem emitStateChange_of_unmounted (i : Nat) (ws : WidgetState) (w : World)
    (hm : w.mounted = false) : emitStateChange i ws w = w := by
  unfold emitStateChange
  rw [hm]
  split <;> rfl

/-! ### Claim theorems -/

/-- C1: for every successful run of the provider's initialization effect
(`YourGPT.init` resolves), the exposed context transitions `isLoading` from
`true` (set at the start of the run) to `false` (cleared in the `finally`
block), `isInitialized` from `false` to `true`, and leaves `error` equal to
`null` at the end of the run. -/
theorem init_success_transitions (w : World) (inst : SDKInstance)
    (hb : w.hooks.isBrowser = true) (hm : w.mounted = true)
    (hinit : w.hooks.isInitialized = false) :
    (step Event.effectRun w).hooks.isLoading = true ∧
    (step Event.effectRun w).hooks.isInitialized = false ∧
    (step (Event.resolveOk inst) (step Event.effectRun w)).hooks.isLoading = false ∧
    (step (Event.resolveOk inst) (step Event.effectRun w)).hooks.isInitialized = true ∧
    (step (Event.resolveOk inst) (step Event.effectRun w)).hooks.error = none := by
  obtain ⟨hch, hcm, hcp, -, -, -, -, -⟩ := runCleanup_preserves w
  have hb1 : (runCleanup w).hooks.isBrowser = true := by rw [hch]; exact hb
  have h1 : step Event.effectRun w = runEffectBody (runCleanup w) := rfl
  rw [h1, runEffectBody_of_browser _ hb1]
  have h2 : ∀ v : World, step (Event.resolveOk inst) v = resolveOkStep inst v :=
    fun _ => rfl
  rw [h2, resolveOkStep_of_mounted inst _ (by simpa using hcm.trans hm) (by simp)]
  simp [hch, hinit]

/-- C1 witness: concrete successful initialization from the initial world. -/
theorem init_success_transitions_witness :
    (step Event.effectRun (step Event.browserEffect (initialWorld false false))).hooks.isLoading = true ∧
    (step Event.effectRun (step Event.browserEffect (initialWorld false false))).hooks.isInitialized = false ∧
    (step (Event.resolveOk ⟨0, defaultWidgetState⟩)
      (step Event.effectRun (step Event.browserEffect (initialWorld false false)))).hooks.isLoading = false ∧
    (step (Event.resolveOk ⟨0, defaultWidgetState⟩)
      (step Event.effectRun (step Event.browserEffect (initialWorld false false)))).hooks.isInitialized = true ∧
    (step (Event.resolveOk ⟨0, defaultWidgetState⟩)
      (step Event.effectRun (step Event.browserEffect (initialWorld false false)))).hooks.error = none :=
  init_success_transitions (step Event.browserEffect (initialWorld false false))
    ⟨0, defaultWidgetState⟩ rfl rfl rfl

/-- C2: for every run of the initialization effect in which `YourGPT.init`
throws, the exposed context ends with `isLoading` `false`, `error` non-null
(the thrown value normalized to a `YourGPTError`: kept as is when it already
is one, otherwise coerced to its message string), `isInitialized` still
`false`; and exactly when the optional `onError` callback is provided it is
invoked with the normalized error. -/
theorem init_failure_transitions (w : World) (t : Thrown)
    (hb : w.hooks.isBrowser = true) (hm : w.mounted = true)
    (hinit : w.hooks.isInitialized = false) :
    (step Event.effectRun w).hooks.isLoading = true ∧
    (step (Event.resolveErr t) (step Event.effectRun w)).hooks.isLoading = false ∧
    (step (Event.resolveErr t) (step Event.effectRun w)).hooks.error =
      some (normalizeThrown t) ∧
    (step (Event.resolveErr t) (step Event.effectRun w)).hooks.isInitialized = false ∧
    (step (Event.resolveErr t) (step Event.effectRun w)).onErrorCalls =
      (if w.hasOnError then w.onErrorCalls ++ [normalizeThrown t] else w.onErrorCalls) ∧
    (∀ e : YourGPTError, normalizeThrown (Thrown.sdkError e) = e) ∧
    (∀ s : String, normalizeThrown (Thrown.other s) = ⟨s⟩) := by
  obtain ⟨hch, hcm, hcp, -, hcoe, -, hcoec, -⟩ := runCleanup_preserves w
  have hb1 : (runCleanup w).hooks.isBrowser = true := by rw [hch]; exact hb
  have h1 : step Event.effectRun w = runEffectBody (runCleanup w) := rfl
  rw [h1, runEffectBody_of_browser _ hb1]
  have h2 : ∀ v : World, step (Event.resolveErr t) v = resolveErrStep t v :=
    fun _ => rfl
  rw [h2, resolveErrStep_of_mounted t _ (by simpa using hcm.trans hm) (by simp)]
  refine ⟨rfl, rfl, rfl, ?_, ?_, fun _ => rfl, fun _ => rfl⟩
  · simp [hch, hinit]
  · simp [hcoe, hcoec]

/-- C2 witness: concrete failing initialization with `onError` provided and a
non-`YourGPTError` thrown value. -/
theorem init_failure_transitions_witness :
    (step Event.effectRun (step Event.browserEffect (initialWorld true false))).hooks.isLoading = true ∧
    (step (Event.resolveErr (Thrown.other "boom"))
      (step Event.effectRun (step Event.browserEffect (initialWorld true false)))).hooks.isLoading = false ∧
    (step (Event.resolveErr (Thrown.other "boom"))
      (step Event.effectRun (step Event.browserEffect (initialWorld true false)))).hooks.error =
      some (normalizeThrown (Thrown.other "boom")) ∧
    (step (Event.resolveErr (Thrown.other "boom"))
      (step Event.effectRun (step Event.browserEffect (initialWorld true false)))).hooks.isInitialized = false ∧
    (step (Event.resolveErr (Thrown.other "boom"))
      (step Event.effectRun (step Event.browserEffect (initialWorld true false)))).onErrorCalls =
      (if (step Event.browserEffect (initialWorld true false)).hasOnError then
        (step Event.browserEffect (initialWorld true false)).onErrorCalls ++
          [normalizeThrown (Thrown.other "boom")]
      else (step Event.browserEffect (initialWorld true false)).onErrorCalls) ∧
    (∀ e : YourGPTError, normalizeThrown (Thrown.sdkError e) = e) ∧
    (∀ s : String, normalizeThrown (Thrown.other s) = ⟨s⟩) :=
  init_failure_transitions (step Event.browserEffect (initialWorld true false))
    (Thrown.other "boom") rfl rfl rfl

/-- C3: every `stateChange` payload emitted on an instance with an attached
listener, while the provider is mounted, becomes the exposed state verbatim;
a second emission overwrites the first (last write wins, no merging). -/
theorem state_change_verbatim (w : World) (i : Nat) (ws1 ws2 : WidgetState)
    (hmem : i ∈ w.listeners) (hm : w.mounted = true) :
    (step (Event.emit i ws1) w).hooks.state = ws1 ∧
    (step (Event.emit i ws2) (step (Event.emit i ws1) w)).hooks.state = ws2 := by
  have h1 : step (Event.emit i ws1) w =
      { w with hooks := { w.hooks with state := ws1 } } := by
    show emitStateChange i ws1 w = _
    unfold emitStateChange
    rw [if_pos hmem, if_pos hm]
  have h2 : step (Event.emit i ws2) { w with hooks := { w.hooks with state := ws1 } } =
      { w with hooks := { w.hooks with state := ws2 } } := by
    show emitStateChange i ws2 _ = _
    unfold emitStateChange
    rw [if_pos (show i ∈ ({ w with hooks := { w.hooks with state := ws1 } } : World).listeners from hmem),
        if_pos (show ({ w with hooks := { w.hooks with state := ws1 } } : World).mounted = true from hm)]
  exact ⟨by rw [h1], by rw [h1, h2]⟩

/-- C3 witness: a subscribed, mounted provider receiving two concrete
payloads in turn. -/
theorem state_change_verbatim_witness :
    (step (Event.emit 0 { defaultWidgetState with isOpen := true })
      { initialWorld false false with listeners := [0] }).hooks.state =
      { defaultWidgetState with isOpen := true } ∧
    (step (Event.emit 0 { defaultWidgetState with messageCount := 5 })
      (step (Event.emit 0 { defaultWidgetState with isOpen := true })
        { initialWorld false false with listeners := [0] })).hooks.state =
      { defaultWidgetState with messageCount := 5 } :=
  state_change_verbatim { initialWorld false false with listeners := [0] } 0
    { defaultWidgetState with isOpen := true }
    { defaultWidgetState with messageCount := 5 } (by decide) rfl

/-- C7: when the effect dependencies change (in particular the `config`
reference), the effect runs again: the registered cleanup from the previous
run is invoked, and a fresh initialization begins — loading is set, the error
is cleared, and the shim `YourGPT.init` is invoked once more. -/
theorem config_change_reinitializes (w : World) (c : Option Nat)
    (hb : w.hooks.isBrowser = true) (hc : w.cleanupCapturedSdk = some c) :
    (step Event.effectRun w).cleanupRuns = w.cleanupRuns + 1 ∧
    (step Event.effectRun w).hooks.isLoading = true ∧
    (step Event.effectRun w).hooks.error = none ∧
    (step Event.effectRun w).initCalls = w.initCalls + 1 ∧
    (step Event.effectRun w).pendingInits = w.pendingInits + 1 := by
  obtain ⟨hch, -, hcp, hci, -, -, -, -⟩ := runCleanup_preserves w
  have hb1 : (runCleanup w).hooks.isBrowser = true := by rw [hch]; exact hb
  have h1 : step Event.effectRun w = runEffectBody (runCleanup w) := rfl
  rw [h1, runEffectBody_of_browser _ hb1]
  refine ⟨?_, rfl, rfl, ?_, ?_⟩
  · simpa using runCleanup_cleanupRuns_of_registered w c hc
  · simp [hci]
  · simp [hcp]

/-- C7 witness: a provider that already ran its effect once re-runs it. -/
theorem config_change_reinitializes_witness :
    (step Event.effectRun
      (run [Event.browserEffect, Event.effectRun] (initialWorld false false))).cleanupRuns =
      (run [Event.browserEffect, Event.effectRun] (initialWorld false false)).cleanupRuns + 1 ∧
    (step Event.effectRun
      (run [Event.browserEffect, Event.effectRun] (initialWorld false false))).hooks.isLoading = true ∧
    (step Event.effectRun
      (run [Event.browserEffect, Event.effectRun] (initialWorld false false))).hooks.error = none ∧
    (step Event.effectRun
      (run [Event.browserEffect, Event.effectRun] (initialWorld false false))).initCalls =
      (run [Event.browserEffect, Event.effectRun] (initialWorld false false)).initCalls + 1 ∧
    (step Event.effectRun
      (run [Event.browserEffect, Event.effectRun] (initialWorld false false))).pendingInits =
      (run [Event.browserEffect, Event.effectRun] (initialWorld false false)).pendingInits + 1 :=
  config_change_reinitializes
    (run [Event.browserEffect, Event.effectRun] (initialWorld false false)) none rfl rfl

/-- C4 evaluated on the code: mount, browser effect, effect run, successful
initialization, then unmount. The cleanup closure registered with React
captured the `sdk` state value of the render in which the effect ran — `null`,
since `setSdk` only happens after the asynchronous init resolves and the
effect is not re-run (its dependency array does not contain `sdk`). So at
teardown `if (sdk)` fails: the cleanup runs (`cleanupRuns = 1`) but the stored
unsubscribe (`storedUnsub = [0]`) is never called (`unsubscribeCalls = 0`) and
the listener stays attached (`listeners = [0]`), contradicting the claim of
exactly one unsubscribe call; no emission after teardown changes anything. -/
theorem unmount_after_success_never_unsubscribes :
    (run [Event.browserEffect, Event.effectRun,
          Event.resolveOk ⟨0, defaultWidgetState⟩, Event.unmount]
       (initialWorld false false)).unsubscribeCalls = 0 ∧
    (run [Event.browserEffect, Event.effectRun,
          Event.resolveOk ⟨0, defaultWidgetState⟩, Event.unmount]
       (initialWorld false false)).cleanupRuns = 1 ∧
    (run [Event.browserEffect, Event.effectRun,
          Event.resolveOk ⟨0, defaultWidgetState⟩, Event.unmount]
       (initialWorld false false)).storedUnsub = [0] ∧
    (run [Event.browserEffect, Event.effectRun,
          Event.resolveOk ⟨0, defaultWidgetState⟩, Event.unmount]
       (initialWorld false false)).listeners = [0] ∧
    (∀ i : Nat, ∀ ws : WidgetState,
      step (Event.emit i ws)
        (run [Event.browserEffect, Event.effectRun,
              Event.resolveOk ⟨0, defaultWidgetState⟩, Event.unmount]
           (initialWorld false false)) =
        (run [Event.browserEffect, Event.effectRun,
              Event.resolveOk ⟨0, defaultWidgetState⟩, Event.unmount]
           (initialWorld false false))) := by
  refine ⟨by decide, by decide, by decide, by decide, fun i ws => ?_⟩
  exact emitStateChange_of_unmounted i ws _ (by decide)

/-- Helper: resolution of a pending init on an unmounted scope still attaches
the listener and stores the unsubscribe on the instance, but none of the hook
state setters apply. -/
theorem resolveOkStep_of_unmounted (inst : SDKInstance) (w : World)
    (hm : w.mounted = false) (hp : w.pendingInits ≠ 0) :
    resolveOkStep inst w =
      { w with
          listeners := inst.id :: w.listeners
          storedUnsub := inst.id :: w.storedUnsub
          onInitializedCalls := (if w.hasOnInitialized then
            w.onInitializedCalls + 1 else w.onInitializedCalls)
          pendingInits := w.pendingInits - 1 } := by
  simp [resolveOkStep, hp, hm]

/-- C6 counterexample: unmounting while the init is pending does not prevent
listener attachment — when the pending `YourGPT.init` later resolves, the
continuation still runs `sdkInstance.on("stateChange", ...)`, so a listener
IS attached, refuting the claim that none is. -/
theorem unmount_while_pending_attaches_listener :
    (run [Event.browserEffect, Event.effectRun, Event.unmount,
          Event.resolveOk ⟨0, defaultWidgetState⟩]
       (initialWorld false false)).listeners ≠ [] := by
  decide

/-- C6 amended: if the scope unmounts while `YourGPT.init` is pending, the
resolving continuation still attaches the `stateChange` listener to the SDK
instance (and it is never removed), but the teardown is harmless for the
exposed bindings: the hook state setters no-op on the unmounted component, so
the exposed flags are never set and no later `stateChange` emission changes
the world in any way. -/
theorem unmount_while_pending_no_exposed_updates (inst : SDKInstance)
    (i : Nat) (ws : WidgetState) :
    (run [Event.browserEffect, Event.effectRun, Event.unmount,
          Event.resolveOk inst] (initialWorld false false)).listeners = [inst.id] ∧
    (run [Event.browserEffect, Event.effectRun, Event.unmount,
          Event.resolveOk inst] (initialWorld false false)).mounted = false ∧
    (run [Event.browserEffect, Event.effectRun, Event.unmount,
          Event.resolveOk inst] (initialWorld false false)).hooks.isInitialized = false ∧
    (run [Event.browserEffect, Event.effectRun, Event.unmount,
          Event.resolveOk inst] (initialWorld false false)).hooks.sdk = none ∧
    step (Event.emit i ws)
      (run [Event.browserEffect, Event.effectRun, Event.unmount,
            Event.resolveOk inst] (initialWorld false false)) =
      (run [Event.browserEffect, Event.effectRun, Event.unmount,
            Event.resolveOk inst] (initialWorld false false)) := by
  have h0 : run [Event.browserEffect, Event.effectRun, Event.unmount,
      Event.resolveOk inst] (initialWorld false false) =
      resolveOkStep inst
        (run [Event.browserEffect, Event.effectRun, Event.unmount]
          (initialWorld false false)) := rfl
  rw [h0, resolveOkStep_of_unmounted inst _ (by decide) (by decide)]
  refine ⟨rfl, rfl, rfl, rfl, ?_⟩
  exact emitStateChange_of_unmounted i ws _ rfl

/-- Invariant of a provider scope in which `isBrowser` has never become true:
the guard at line 58 keeps the effect body from ever reaching the shim, so no
init is pending or was ever issued, no listeners exist, and the exposed state
is still the default snapshot. -/
def NoBrowserInv (w : World) : Prop :=
  w.hooks.isBrowser = false ∧ w.initCalls = 0 ∧ w.pendingInits = 0 ∧
  w.listeners = [] ∧ w.hooks.state = defaultWidgetState

theorem runCleanup_listeners_nil (w : World) (h : w.listeners = []) :
    (runCleanup w).listeners = [] := by
  unfold runCleanup
  rcases hc : w.cleanupCapturedSdk with _ | (_ | i)
  · exact h
  · exact h
  · by_cases hm : i ∈ w.storedUnsub <;> simp [hm, h]

theorem noBrowserInv_step (e : Event) (w : World) (he : e ≠ Event.browserEffect)
    (hw : NoBrowserInv w) : NoBrowserInv (step e w) := by
  obtain ⟨h1, h2, h3, h4, h5⟩ := hw
  obtain ⟨hch, -, hcp, hci, -, -, -, -⟩ := runCleanup_preserves w
  cases e with
  | browserEffect => exact absurd rfl he
  | effectRun =>
    show NoBrowserInv (runEffectBody (runCleanup w))
    have hb : (runCleanup w).hooks.isBrowser = false := by rw [hch]; exact h1
    have hr : runEffectBody (runCleanup w) =
        { runCleanup w with cleanupCapturedSdk := none } := by
      simp [runEffectBody, hb]
    rw [hr]
    exact ⟨by simp [hch, h1], by simp [hci, h2], by simp [hcp, h3],
           by simpa using runCleanup_listeners_nil w h4, by simp [hch, h5]⟩
  | resolveOk inst =>
    show NoBrowserInv (resolveOkStep inst w)
    unfold resolveOkStep
    rw [if_pos h3]
    exact ⟨h1, h2, h3, h4, h5⟩
  | resolveErr t =>
    show NoBrowserInv (resolveErrStep t w)
    unfold resolveErrStep
    rw [if_pos h3]
    exact ⟨h1, h2, h3, h4, h5⟩
  | emit i ws =>
    show NoBrowserInv (emitStateChange i ws w)
    unfold emitStateChange
    rw [h4, if_neg (List.not_mem_nil i)]
    exact ⟨h1, h2, h3, h4, h5⟩
  | unmount =>
    show NoBrowserInv { runCleanup w with mounted := false }
    exact ⟨by simp [hch, h1], by simp [hci, h2], by simp [hcp, h3],
           by simpa using runCleanup_listeners_nil w h4, by simp [hch, h5]⟩

theorem noBrowserInv_run (evs : List Event) (w : World)
    (he : ∀ e ∈ evs, e ≠ Event.browserEffect) (hw : NoBrowserInv w) :
    NoBrowserInv (run evs w) := by
  induction evs generalizing w with
  | nil => exact hw
  | cons e es ih =>
    have h1 : run (e :: es) w = run es (step e w) := rfl
    rw [h1]
    exact ih (step e w) (fun x hx => he x (List.mem_cons_of_mem e hx))
      (noBrowserInv_step e w (he e (List.mem_cons_self e es)) hw)

/-- C5: in every execution in which the `isBrowser` flag never becomes true
(no browser effect ever runs), the external shim call `YourGPT.init` is never
invoked by the provider. -/
theorem non_browser_never_invokes_init (onErr onInit : Bool) (evs : List Event)
    (he : ∀ e ∈ evs, e ≠ Event.browserEffect) :
    (run evs (initialWorld onErr onInit)).initCalls = 0 :=
  (noBrowserInv_run evs (initialWorld onErr onInit) he
    ⟨rfl, rfl, rfl, rfl, rfl⟩).2.1

/-- C5 witness: even with the effect running (and a teardown), the guard keeps
the shim uninvoked while `isBrowser` is false. -/
theorem non_browser_never_invokes_init_witness :
    (run [Event.effectRun, Event.unmount] (initialWorld false false)).initCalls = 0 :=
  non_browser_never_invokes_init false false [Event.effectRun, Event.unmount]
    (by decide)

/-- C10: the exposed state starts as the fixed default `WidgetState` (lines
42-49) and stays that way before initialization resolves — and forever in an
execution where `isBrowser` never becomes true — while a successful
resolution immediately replaces it with the instance's `getState()` snapshot,
without waiting for any `stateChange` event. -/
theorem default_state_until_first_snapshot (onErr onInit : Bool)
    (evs : List Event) (he : ∀ e ∈ evs, e ≠ Event.browserEffect)
    (w : World) (inst : SDKInstance)
    (hm : w.mounted = true) (hp : w.pendingInits ≠ 0) :
    (initialWorld onErr onInit).hooks.state = defaultWidgetState ∧
    defaultWidgetState =
      { isOpen := false
        isVisible := true
        isConnected := false
        isLoaded := false
        messageCount := 0
        connectionRetries := 0 } ∧
    (run [Event.browserEffect, Event.effectRun]
      (initialWorld onErr onInit)).hooks.state = defaultWidgetState ∧
    (run evs (initialWorld onErr onInit)).hooks.state = defaultWidgetState ∧
    (resolveOkStep inst w).hooks.state = inst.getState := by
  refine ⟨rfl, rfl, rfl, ?_, ?_⟩
  · exact (noBrowserInv_run evs (initialWorld onErr onInit) he
      ⟨rfl, rfl, rfl, rfl, rfl⟩).2.2.2.2
  · rw [resolveOkStep_of_mounted inst w hm hp]

/-- C10 witness: concrete non-browser trace and a concrete pending resolve. -/
theorem default_state_until_first_snapshot_witness :
    (initialWorld false false).hooks.state = defaultWidgetState ∧
    defaultWidgetState =
      { isOpen := false
        isVisible := true
        isConnected := false
        isLoaded := false
        messageCount := 0
        connectionRetries := 0 } ∧
    (run [Event.browserEffect, Event.effectRun]
      (initialWorld false false)).hooks.state = defaultWidgetState ∧
    (run [Event.unmount] (initialWorld false false)).hooks.state = defaultWidgetState ∧
    (resolveOkStep (SDKInstance.mk 3 { defaultWidgetState with isOpen := true })
      { initialWorld false false with pendingInits := 1 }).hooks.state =
      (SDKInstance.mk 3 { defaultWidgetState with isOpen := true }).getState :=
  default_state_until_first_snapshot false false [Event.unmount] (by decide)
    { initialWorld false false with pendingInits := 1 }
    (SDKInstance.mk 3 { defaultWidgetState with isOpen := true }) rfl (by decide)

/-- C9: calling `useYourGPT` with a null context (outside a mounted provider)
throws a `YourGPTError` with message "useYourGPT must be used within a
YourGPTProvider"; inside a provider it returns the non-null context value. -/
theorem useYourGPT_contract :
    useYourGPT none =
      Except.error ⟨"useYourGPT must be used within a YourGPTProvider"⟩ ∧
    ∀ v : YourGPTContextValue, useYourGPT (some v) = Except.ok v :=
  ⟨rfl, fun _ => rfl⟩

/-- C8: registering a handler under a name and then unregistering that name
leaves the registry empty again; more generally the round trip returns any
registry that had no binding for the name to its prior state. -/
theorem register_unregister_roundtrip (α : Type) (name : String) (handler : α) :
    unregisterAction name (registerAction name handler (emptyRegistry α)) =
      emptyRegistry α ∧
    ∀ r : ActionRegistry α, r name = none →
      unregisterAction name (registerAction name handler r) = r := by
  constructor
  · funext n
    unfold unregisterAction registerAction emptyRegistry
    by_cases h : n = name <;> simp [h]
  · intro r hr
    funext n
    unfold unregisterAction registerAction
    by_cases h : n = name
    · simp [h, hr]
    · simp [h]

/-- C8 witness: a concrete action name round-tripped on the empty registry. -/
theorem register_unregister_roundtrip_witness :
    unregisterAction "delete_todo"
      (registerAction "delete_todo" 7 (emptyRegistry Nat)) = emptyRegistry Nat :=
  (register_unregister_roundtrip Nat "delete_todo" 7).2 (emptyRegistry Nat) rfl

end YourGPTSDK
